import Mathlib

/-!
Shallow embedding of the multi-tenant MCP request router (src/mcp-rust) and
proofs about its rate limiter, handler registry, request lifecycle,
sub-server supervisor and stdio loop.

Conventions of the embedding:
* `f64` token arithmetic is modelled over `ℚ` (exact rationals); the claims
  under study are structural and do not depend on floating-point rounding.
* `Instant` timestamps are rationals; the monotonic clock is threaded as an
  explicit `now` parameter.
* Rust `HashMap`s are modelled as association lists; `entry().or_insert_with`
  becomes lookup-with-default followed by an update of the same key.
* Async/await and locks disappear: every operation is a pure state-passing
  function.  Atomic counters become plain `Nat` fields.
-/

namespace McpRust

/-- JSON values (serde_json::Value); numbers restricted to integers, which is
all the claims need. -/
inductive Json where
  | null : Json
  | bool (b : Bool) : Json
  | num (n : Int) : Json
  | str (s : String) : Json
  | arr (elems : List Json) : Json
  | obj (fields : List (String × Json)) : Json

/-- Association-list lookup keyed by strings (models HashMap::get; first
matching key wins). -/
def lookupKey {α : Type} (key : String) : List (String × α) → Option α
  | [] => none
  | (k, v) :: rest => if k = key then some v else lookupKey key rest

/-- Association-list update (models in-place mutation of a HashMap entry:
replace the first binding of `key`, or append a fresh binding). -/
def updateKey {α : Type} (key : String) (v : α) : List (String × α) → List (String × α)
  | [] => [(key, v)]
  | (k, w) :: rest => if k = key then (k, v) :: rest else (k, w) :: updateKey key v rest

/-- Field access on a JSON object (serde_json::Value::get). -/
def Json.getField : Json → String → Option Json
  | .obj fields, key => lookupKey key fields
  | _, _ => none

/-- Value::as_str. -/
def Json.asStr : Json → Option String
  | .str s => some s
  | _ => none

/-- Value::as_array. -/
def Json.asArr : Json → Option (List Json)
  | .arr elems => some elems
  | _ => none

/-! ## Rate limiting (src/mcp-rust/src/rate_limiting.rs) -/

/-- AwsServiceLimits (rate_limiting.rs:9-30): per-service capacities, all u32
in the source, kept as `Nat`. -/
structure AwsServiceLimits where
  dynamodbReadUnits : Nat
  dynamodbWriteUnits : Nat
  dynamodbQueriesPerSec : Nat
  s3GetRequestsPerSec : Nat
  s3PutRequestsPerSec : Nat
  s3ListRequestsPerSec : Nat
  eventbridgePutEventsPerSec : Nat
  eventbridgeEventsBatchSize : Nat
  secretsManagerRequestsPerSec : Nat
  awsApiCallsPerSec : Nat
  awsBurstCapacity : Nat
deriving DecidableEq, Repr

/-- Default for AwsServiceLimits (rate_limiting.rs:32-53). -/
def AwsServiceLimits.default : AwsServiceLimits where
  dynamodbReadUnits := 1000
  dynamodbWriteUnits := 1000
  dynamodbQueriesPerSec := 100
  s3GetRequestsPerSec := 500
  s3PutRequestsPerSec := 350
  s3ListRequestsPerSec := 10
  eventbridgePutEventsPerSec := 1000
  eventbridgeEventsBatchSize := 10
  secretsManagerRequestsPerSec := 500
  awsApiCallsPerSec := 200
  awsBurstCapacity := 1000

/-- RateLimitBucket (rate_limiting.rs:56-62); `tokens`/`capacity`/`refill_rate`
are f64 in the source, modelled as ℚ, and `last_refill` is an Instant. -/
structure RateLimitBucket where
  tokens : ℚ
  lastRefill : ℚ
  capacity : ℚ
  refillRate : ℚ
deriving DecidableEq, Repr

/-- RateLimitBucket::new (rate_limiting.rs:65-72): starts full. -/
def RateLimitBucket.new (now capacity refillRate : ℚ) : RateLimitBucket where
  tokens := capacity
  lastRefill := now
  capacity := capacity
  refillRate := refillRate

/-- RateLimitBucket::refill (rate_limiting.rs:85-92). -/
def RateLimitBucket.refill (b : RateLimitBucket) (now : ℚ) : RateLimitBucket :=
  let elapsed := now - b.lastRefill
  let tokensToAdd := elapsed * b.refillRate
  { b with tokens := min (b.tokens + tokensToAdd) b.capacity, lastRefill := now }

/-- RateLimitBucket::try_consume (rate_limiting.rs:74-83): refill, then debit
`cost` if enough tokens remain. -/
def RateLimitBucket.try_consume (b : RateLimitBucket) (now cost : ℚ) :
    Bool × RateLimitBucket :=
  let b := b.refill now
  if cost ≤ b.tokens then
    (true, { b with tokens := b.tokens - cost })
  else
    (false, b)

/-- AwsOperation (rate_limiting.rs:188-198). -/
inductive AwsOperation where
  | dynamoDbQuery : AwsOperation
  | dynamoDbRead (readUnits : Nat) : AwsOperation
  | dynamoDbWrite (writeUnits : Nat) : AwsOperation
  | s3Get : AwsOperation
  | s3Put : AwsOperation
  | s3List : AwsOperation
  | eventBridgePutEvents (eventCount : Nat) : AwsOperation
  | secretsManagerGet : AwsOperation
  | genericAwsApi : AwsOperation
deriving DecidableEq, Repr

/-- AwsOperation::service_key (rate_limiting.rs:201-213). -/
def AwsOperation.service_key : AwsOperation → String
  | .dynamoDbQuery => "dynamodb_query"
  | .dynamoDbRead _ => "dynamodb_read"
  | .dynamoDbWrite _ => "dynamodb_write"
  | .s3Get => "s3_get"
  | .s3Put => "s3_put"
  | .s3List => "s3_list"
  | .eventBridgePutEvents _ => "eventbridge_put"
  | .secretsManagerGet => "secrets_get"
  | .genericAwsApi => "aws_api"

/-- AwsOperation::from_tool_name (rate_limiting.rs:216-232): maps an MCP tool
name and its JSON arguments to the operation class; the catch-all arm makes
the mapping total. -/
def AwsOperation.from_tool_name (toolName : String) (args : Json) : Option AwsOperation :=
  if toolName = "kv_get" ∨ toolName = "kv_list" then
    some (.dynamoDbRead 1)
  else if toolName = "kv_set" ∨ toolName = "kv_delete" then
    some (.dynamoDbWrite 1)
  else if toolName = "artifacts_get" ∨ toolName = "artifacts_list" then
    some .s3Get
  else if toolName = "artifacts_put" then
    some .s3Put
  else if toolName = "events_send" then
    let eventCount :=
      match (args.getField "events").bind Json.asArr with
      | some elems => elems.length
      | none => 1
    some (.eventBridgePutEvents eventCount)
  else if toolName = "analytics_query" then
    some .dynamoDbQuery
  else
    some .genericAwsApi

/-- AwsRateLimiter::get_limits_for_operation (rate_limiting.rs:124-172):
(capacity, refill rate, cost) for an operation. -/
def AwsServiceLimits.get_limits_for_operation (l : AwsServiceLimits) :
    AwsOperation → ℚ × ℚ × ℚ
  | .dynamoDbQuery =>
      ((l.dynamodbQueriesPerSec : ℚ), (l.dynamodbQueriesPerSec : ℚ), 1)
  | .dynamoDbRead readUnits =>
      ((l.dynamodbReadUnits : ℚ), (l.dynamodbReadUnits : ℚ), (readUnits : ℚ))
  | .dynamoDbWrite writeUnits =>
      ((l.dynamodbWriteUnits : ℚ), (l.dynamodbWriteUnits : ℚ), (writeUnits : ℚ))
  | .s3Get =>
      ((l.s3GetRequestsPerSec : ℚ), (l.s3GetRequestsPerSec : ℚ), 1)
  | .s3Put =>
      ((l.s3PutRequestsPerSec : ℚ), (l.s3PutRequestsPerSec : ℚ), 1)
  | .s3List =>
      ((l.s3ListRequestsPerSec : ℚ), (l.s3ListRequestsPerSec : ℚ), 1)
  | .eventBridgePutEvents eventCount =>
      ((l.eventbridgePutEventsPerSec : ℚ), (l.eventbridgePutEventsPerSec : ℚ),
        min (eventCount : ℚ) (l.eventbridgeEventsBatchSize : ℚ))
  | .secretsManagerGet =>
      ((l.secretsManagerRequestsPerSec : ℚ), (l.secretsManagerRequestsPerSec : ℚ), 1)
  | .genericAwsApi =>
      ((l.awsApiCallsPerSec : ℚ), (l.awsApiCallsPerSec : ℚ), 1)

/-- State of AwsRateLimiter::buckets: HashMap<String, RateLimitBucket>. -/
abbrev BucketMap := List (String × RateLimitBucket)

/-- AwsRateLimiter::check_aws_operation (rate_limiting.rs:111-121): build the
key `tenant_id:service_key`, fetch or lazily create the bucket, and try to
consume the operation's cost. -/
def AwsRateLimiter.check_aws_operation (limits : AwsServiceLimits)
    (buckets : BucketMap) (now : ℚ) (tenantId : String) (op : AwsOperation) :
    Bool × BucketMap :=
  let bucketKey := tenantId ++ ":" ++ op.service_key
  let lims := limits.get_limits_for_operation op
  let capacity := lims.1
  let rate := lims.2.1
  let cost := lims.2.2
  let bucket := (lookupKey bucketKey buckets).getD (RateLimitBucket.new now capacity rate)
  let res := bucket.try_consume now cost
  (res.1, updateKey bucketKey res.2 buckets)

/-! ## Tenant model (src/mcp-rust/src/tenant.rs) -/

/-- ContextType (tenant.rs:22-26). -/
inductive ContextType where
  | personal : ContextType
  | organization (orgId orgName : String) : ContextType
deriving DecidableEq, Repr

/-- UserRole (tenant.rs:81-86). -/
inductive UserRole where
  | admin : UserRole
  | user : UserRole
  | viewer : UserRole
deriving DecidableEq, Repr

/-- Permission (tenant.rs:88-103). -/
inductive Permission where
  | readKV | writeKV | deleteKV
  | listArtifacts | getArtifacts | putArtifacts
  | sendEvents | executeWorkflows | manageUsers
  | execute | admin | read | write
deriving DecidableEq, Repr

/-- Rust Debug rendering of a Permission variant (what `{0:?}` prints in the
thiserror message of HandlerError::PermissionDenied). -/
def Permission.debugStr : Permission → String
  | .readKV => "ReadKV"
  | .writeKV => "WriteKV"
  | .deleteKV => "DeleteKV"
  | .listArtifacts => "ListArtifacts"
  | .getArtifacts => "GetArtifacts"
  | .putArtifacts => "PutArtifacts"
  | .sendEvents => "SendEvents"
  | .executeWorkflows => "ExecuteWorkflows"
  | .manageUsers => "ManageUsers"
  | .execute => "Execute"
  | .admin => "Admin"
  | .read => "Read"
  | .write => "Write"

/-- ResourceLimits (tenant.rs:105-112). -/
structure ResourceLimits where
  maxKvSize : Nat
  maxArtifacts : Nat
  requestsPerMinute : Nat
  maxConcurrentRequests : Nat
  awsServiceLimits : AwsServiceLimits
deriving DecidableEq, Repr

/-- Default for ResourceLimits (tenant.rs:114-124). -/
def ResourceLimits.default : ResourceLimits where
  maxKvSize := 100000000
  maxArtifacts := 1000
  requestsPerMinute := 100
  maxConcurrentRequests := 10
  awsServiceLimits := AwsServiceLimits.default

/-- TenantContext (tenant.rs:28-38). -/
structure TenantContext where
  tenantId : String
  userId : String
  contextType : ContextType
  organizationId : String
  role : UserRole
  permissions : List Permission
  awsRegion : String
  resourceLimits : ResourceLimits
deriving DecidableEq, Repr

/-- TenantContext::get_context_id (tenant.rs:54-59). -/
def TenantContext.get_context_id (c : TenantContext) : String :=
  match c.contextType with
  | .personal => "personal-" ++ c.userId
  | .organization orgId _ => "org-" ++ orgId

/-- TenantSession (tenant.rs:126-135).  The random `session_id` UUID and the
`created_at` timestamp play no role in any claim and are not represented;
`request_count` and `active_requests` are the atomic counters, `last_activity`
the activity timestamp. -/
structure TenantSession where
  context : TenantContext
  lastActivity : ℚ
  requestCount : Nat
  activeRequests : Nat
deriving DecidableEq, Repr

/-- TenantSession::new (tenant.rs:137-148): both counters start at 0. -/
def TenantSession.new (now : ℚ) (context : TenantContext) : TenantSession where
  context := context
  lastActivity := now
  requestCount := 0
  activeRequests := 0

/-- TenantSession::update_activity (tenant.rs:150-153). -/
def TenantSession.update_activity (s : TenantSession) (now : ℚ) : TenantSession :=
  { s with lastActivity := now }

/-- TenantSession::increment_request_count (tenant.rs:155-158). -/
def TenantSession.increment_request_count (s : TenantSession) : TenantSession :=
  { s with requestCount := s.requestCount + 1 }

/-- TenantSession::increment_active_requests (tenant.rs:160-163). -/
def TenantSession.increment_active_requests (s : TenantSession) : TenantSession :=
  { s with activeRequests := s.activeRequests + 1 }

/-- TenantSession::decrement_active_requests (tenant.rs:165-174): saturating
decrement, mirrored exactly by Nat subtraction. -/
def TenantSession.decrement_active_requests (s : TenantSession) : TenantSession :=
  { s with activeRequests := s.activeRequests - 1 }

/-- TenantSession::check_rate_limit (tenant.rs:176-184): the two legacy
per-session guards. -/
def TenantSession.check_rate_limit (s : TenantSession) : Bool :=
  decide (s.requestCount < s.context.resourceLimits.requestsPerMinute) &&
  decide (s.activeRequests < s.context.resourceLimits.maxConcurrentRequests)

/-- TenantSession::has_permission (tenant.rs:197-202): Admin role short-
circuits, otherwise membership in the explicit permission list. -/
def TenantSession.has_permission (s : TenantSession) (p : Permission) : Bool :=
  match s.context.role with
  | .admin => true
  | _ => decide (p ∈ s.context.permissions)

/-- TenantError (tenant.rs:11-20). -/
inductive TenantError where
  | notFound (tenantId : String) : TenantError
  | unauthorized (tenantId : String) : TenantError
  | configError (msg : String) : TenantError
deriving DecidableEq, Repr

/-- Display rendering of TenantError (the thiserror format strings). -/
def TenantError.toMessage : TenantError → String
  | .notFound t => "Tenant not found: " ++ t
  | .unauthorized t => "Unauthorized access for tenant: " ++ t
  | .configError m => "Tenant configuration error: " ++ m

/-- TenantContext materialized by auto-registration of an unknown tenant
(tenant.rs:352-364): role Admin, permission list `[Admin]`, default limits. -/
def autoRegisterContext (tenantId userId awsRegion : String) : TenantContext where
  tenantId := tenantId
  userId := userId
  contextType := .organization tenantId tenantId
  organizationId := tenantId
  role := .admin
  permissions := [.admin]
  awsRegion := awsRegion
  resourceLimits := ResourceLimits.default

/-! ## Handler registry (src/mcp-rust/src/handlers.rs) -/

/-- HandlerError (handlers.rs:17-29). -/
inductive HandlerError where
  | permissionDenied (p : Permission) : HandlerError
  | invalidArguments (msg : String) : HandlerError
  | aws (msg : String) : HandlerError
  | notFound (tool : String) : HandlerError
  | internal (msg : String) : HandlerError
deriving DecidableEq, Repr

/-- Display rendering of HandlerError (the thiserror format strings;
PermissionDenied prints the Debug form of the permission). -/
def HandlerError.toMessage : HandlerError → String
  | .permissionDenied p => "Permission denied: required " ++ p.debugStr
  | .invalidArguments m => "Invalid arguments: " ++ m
  | .aws m => "AWS error: " ++ m
  | .notFound t => "Handler not found: " ++ t
  | .internal m => "Internal handler error: " ++ m

/-- Tool table of HandlerRegistry::new (handlers.rs:48-151): each registered
tool name with the `required_permission()` its handler declares. -/
def handlerTable : List (String × Option Permission) :=
  [("kv_get", some .readKV),
   ("kv_set", some .writeKV),
   ("artifacts_get", some .getArtifacts),
   ("artifacts_put", some .putArtifacts),
   ("artifacts_list", some .listArtifacts),
   ("events_send", some .sendEvents),
   ("events_query", some .sendEvents),
   ("events_analytics", some .sendEvents),
   ("events_create_rule", some .writeKV),
   ("events_create_alert", some .writeKV),
   ("events_health_check", some .readKV),
   ("integration_register", some .admin),
   ("integration_connect", some .write),
   ("integration_list", some .read),
   ("integration_disconnect", some .write),
   ("integration_test", some .read),
   ("mcp_proxy", some .execute),
   ("mcp_list_tools", some .read)]

/-- Type of a handler body (`Handler::handle`): the AWS-backed closures are
external collaborators, threaded through the embedding as a parameter so that
nothing about them is assumed. -/
abbrev InvokeFn := String → Json → Except HandlerError Json

/-- Type of `Handler::tool_schema`, likewise threaded as a parameter. -/
abbrev SchemaFn := String → Json

/-- Insertion of the `name` field that list_tools performs on a tool schema
object (handlers.rs:164-167); non-object schemas pass through unchanged. -/
def Json.withName (j : Json) (name : String) : Json :=
  match j with
  | .obj fields => .obj (updateKey "name" (.str name) fields)
  | other => other

/-- HandlerRegistry::list_tools (handlers.rs:153-173): keep the tools whose
required permission the session holds, and stamp each schema with its name. -/
def HandlerRegistry.list_tools (schema : SchemaFn) (s : TenantSession) : List Json :=
  (handlerTable.filter (fun entry =>
      match entry.2 with
      | some p => s.has_permission p
      | none => true)).map
    (fun entry => (schema entry.1).withName entry.1)

/-- HandlerRegistry::handle_tool_call (handlers.rs:175-198): unknown tool is
NotFound; a failed permission check is PermissionDenied; otherwise the
handler body runs. -/
def HandlerRegistry.handle_tool_call (invoke : InvokeFn) (s : TenantSession)
    (toolName : String) (arguments : Json) : Except HandlerError Json :=
  match lookupKey toolName handlerTable with
  | none => .error (.notFound toolName)
  | some requiredPerm =>
    match requiredPerm with
    | some p =>
        if s.has_permission p then invoke toolName arguments
        else .error (.permissionDenied p)
    | none => invoke toolName arguments

/-! ## MCP server (src/mcp-rust/src/mcp.rs) -/

/-- MCPError (mcp.rs:13-30). -/
inductive MCPError where
  | invalidRequest (msg : String) : MCPError
  | methodNotFound (method : String) : MCPError
  | tenantError (e : TenantError) : MCPError
  | handlerError (msg : String) : MCPError
  | permissionDenied (msg : String) : MCPError
  | rateLimitExceeded : MCPError
  | internal (msg : String) : MCPError
deriving DecidableEq, Repr

/-- MCPErrorResponse (mcp.rs:57-63). -/
structure MCPErrorResponse where
  code : Int
  message : String
  data : Option Json

/-- From<MCPError> for MCPErrorResponse (mcp.rs:65-83): the error-code table. -/
def MCPError.toResponseError : MCPError → MCPErrorResponse
  | .invalidRequest m => ⟨-32600, "Invalid Request: " ++ m, none⟩
  | .methodNotFound m => ⟨-32601, "Method not found: " ++ m, none⟩
  | .permissionDenied m => ⟨-32000, "Permission denied: " ++ m, none⟩
  | .rateLimitExceeded => ⟨-32001, "Rate limit exceeded", none⟩
  | .tenantError e => ⟨-32002, "Tenant error: " ++ e.toMessage, none⟩
  | .handlerError m => ⟨-32003, "Handler error: " ++ m, none⟩
  | .internal m => ⟨-32603, "Internal error: " ++ m, none⟩

/-- MCPRequest (mcp.rs:32-45) in its serde-decoded form: `id` and `params`
are `Option<Value>`, the tenant extension fields `Option<String>`. -/
structure MCPRequest where
  jsonrpc : String
  id : Option Json
  method : String
  params : Option Json
  tenantId : Option String
  userId : Option String
  sessionToken : Option String

/-- MCPResponse (mcp.rs:47-55). -/
structure MCPResponse where
  jsonrpc : String
  id : Option Json
  result : Option Json
  error : Option MCPErrorResponse

/-- Decoding of a serde `Option<String>` field: absent or JSON null is None,
a string is Some, anything else is a deserialization error. -/
def decodeOptStr : Option Json → Option (Option String)
  | none => some none
  | some .null => some none
  | some (.str s) => some (some s)
  | some _ => none

/-- Decoding of a serde `Option<Value>` field: absent or JSON null is None
(this is what makes `id: null` a notification), any other value is Some. -/
def decodeOptVal : Option Json → Option Json
  | none => none
  | some .null => none
  | some v => some v

/-- Serde decoding of MCPRequest from a JSON value: requires an object with
string `jsonrpc` and `method` fields; `id`/`params` optional and nullable;
the tenant extension fields optional nullable strings. -/
def MCPRequest.ofJson (j : Json) : Option MCPRequest :=
  match j with
  | .obj _ =>
    match j.getField "jsonrpc", j.getField "method" with
    | some (.str jr), some (.str m) =>
      match decodeOptStr (j.getField "tenant_id"), decodeOptStr (j.getField "user_id"),
            decodeOptStr (j.getField "session_token") with
      | some tid, some uid, some tok =>
          some { jsonrpc := jr, id := decodeOptVal (j.getField "id"), method := m,
                 params := decodeOptVal (j.getField "params"),
                 tenantId := tid, userId := uid, sessionToken := tok }
      | _, _, _ => none
    | _, _ => none
  | _ => none

/-- Process-environment inputs consumed by the server: DEFAULT_TENANT_ID,
DEFAULT_USER_ID, AWS_REGION, the tenant directory, and the limits the
TenantManager's AwsRateLimiter was built with (AwsServiceLimits::default()
in TenantManager::new, tenant.rs:250). -/
structure Env where
  defaultTenantId : Option String
  defaultUserId : Option String
  awsRegion : String
  tenantConfigs : List (String × TenantContext)
  awsLimits : AwsServiceLimits

/-- MCPServer::get_or_create_session (mcp.rs:284-318) together with
TenantManager::validate_tenant_access (tenant.rs:329-373) and
TenantManager::create_session (tenant.rs:259-274).  Identity comes from the
envelope or the environment defaults; a known tenant must match its
configured user; an unknown tenant is auto-registered when DEFAULT_TENANT_ID
is set (yielding a session over the materialized admin context), and is
rejected otherwise.  Every successful path builds a fresh session. -/
def MCPServer.get_or_create_session (env : Env) (now : ℚ) (req : MCPRequest) :
    Except MCPError TenantSession :=
  match req.tenantId.orElse (fun _ => env.defaultTenantId) with
  | none => .error (.invalidRequest
      "tenant_id is required (set DEFAULT_TENANT_ID env var for local dev)")
  | some tid =>
    match req.userId.orElse (fun _ => env.defaultUserId) with
    | none => .error (.invalidRequest
        "user_id is required (set DEFAULT_USER_ID env var for local dev)")
    | some uid =>
      match lookupKey tid env.tenantConfigs with
      | some ctx =>
          if ctx.userId = uid then .ok (TenantSession.new now ctx)
          else .error (.tenantError (.unauthorized tid))
      | none =>
          if env.defaultTenantId.isSome then
            .ok (TenantSession.new now (autoRegisterContext tid uid env.awsRegion))
          else
            .error (.tenantError (.notFound tid))

/-- Fixed result of MCPServer::handle_initialize (mcp.rs:320-333). -/
def initializeResult : Json :=
  .obj [("protocolVersion", .str "2025-06-18"),
        ("capabilities", .obj [("tools", .obj [])]),
        ("serverInfo", .obj [("name", .str "mcp-rust"), ("version", .str "0.1.0")])]

/-- MCPServer::handle_tool_call (mcp.rs:347-380): params and a string tool
name are required, `arguments` defaults to the empty object, and every
HandlerRegistry error — including PermissionDenied — is wrapped into
MCPError::HandlerError carrying the handler error's display string. -/
def MCPServer.handle_tool_call (invoke : InvokeFn) (session : TenantSession)
    (params : Option Json) : Except MCPError Json :=
  match params with
  | none => .error (.invalidRequest "Missing parameters")
  | some p =>
    match p.getField "name" with
    | none => .error (.invalidRequest "Missing tool name")
    | some nameJson =>
      match nameJson.asStr with
      | none => .error (.invalidRequest "Invalid tool name")
      | some toolName =>
        let arguments := (p.getField "arguments").getD (.obj [])
        match HandlerRegistry.handle_tool_call invoke session toolName arguments with
        | .error e => .error (.handlerError e.toMessage)
        | .ok v => .ok v

/-- MCPServer::process_request (mcp.rs:236-282): session, legacy per-session
guards, AWS token-bucket charge for tools/call (passing `params` itself to
from_tool_name, as the source does), counter increments, activity update,
then dispatch by method.  Returns the result together with the limiter
state. -/
def MCPServer.process_request (env : Env) (invoke : InvokeFn) (schema : SchemaFn)
    (now : ℚ) (st : BucketMap) (req : MCPRequest) :
    Except MCPError Json × BucketMap :=
  match MCPServer.get_or_create_session env now req with
  | .error e => (.error e, st)
  | .ok session =>
    if !session.check_rate_limit then
      (.error .rateLimitExceeded, st)
    else
      let charge : Bool × BucketMap :=
        if req.method = "tools/call" then
          match req.params with
          | some params =>
            match (params.getField "name").bind Json.asStr with
            | some toolName =>
              match AwsOperation.from_tool_name toolName params with
              | some op =>
                  AwsRateLimiter.check_aws_operation env.awsLimits st now
                    session.context.tenantId op
              | none => (true, st)
            | none => (true, st)
          | none => (true, st)
        else (true, st)
      if !charge.1 then
        (.error .rateLimitExceeded, charge.2)
      else
        let session := session.increment_request_count.increment_active_requests
        let session := session.update_activity now
        let result : Except MCPError Json :=
          if req.method = "initialize" then
            .ok initializeResult
          else if req.method = "tools/list" then
            .ok (.obj [("tools", .arr (HandlerRegistry.list_tools schema session))])
          else if req.method = "tools/call" then
            MCPServer.handle_tool_call invoke session req.params
          else if req.method = "notifications/initialized" then
            .ok .null
          else
            .error (.methodNotFound req.method)
        (result, charge.2)

/-- MCPServer::handle_request (mcp.rs:196-234): a record that fails to parse
as an MCPRequest yields an InvalidRequest response with `id: null` (its
message, serde's dynamic parse error, is abstracted to a fixed string); a
notification (absent or null id) yields no response; otherwise the
process_request outcome is wrapped in a response carrying the request's id
verbatim. -/
def MCPServer.handle_request (env : Env) (invoke : InvokeFn) (schema : SchemaFn)
    (now : ℚ) (st : BucketMap) (j : Json) : Option MCPResponse × BucketMap :=
  match MCPRequest.ofJson j with
  | none =>
      (some { jsonrpc := "2.0", id := none, result := none,
              error := some (MCPError.invalidRequest "parse error").toResponseError }, st)
  | some req =>
    match req.id with
    | none => (none, st)
    | some _ =>
      match MCPServer.process_request env invoke schema now st req with
      | (.ok v, st') =>
          (some { jsonrpc := "2.0", id := req.id, result := some v, error := none }, st')
      | (.error e, st') =>
          (some { jsonrpc := "2.0", id := req.id, result := none,
                  error := some e.toResponseError }, st')

/-! ## Stdio loop and process exit (mcp.rs:105-154, main.rs:14-43) -/

/-- One read from stdin as the loop observes it: a complete line (already
parsed into a JSON value; raw syntax errors surface as values that fail
MCPRequest.ofJson), or a read error.  End of the list is EOF. -/
inductive StdinEvent where
  | line (j : Json) : StdinEvent
  | readErr : StdinEvent

/-- Which condition triggered shutdown for a given input stream. -/
inductive ShutdownCause where
  | eof : ShutdownCause
  | readError : ShutdownCause
deriving DecidableEq, Repr

/-- Shutdown trigger of MCPServer::run on a given input stream: EOF when the
stream drains, readError when a read fails first. -/
def shutdownCause : List StdinEvent → ShutdownCause
  | [] => .eof
  | .readErr :: _ => .readError
  | .line _ :: rest => shutdownCause rest

/-- MCPServer::run (mcp.rs:105-154) as a function from the input stream to
whether `run` returns Ok.  Both the EOF arm (mcp.rs:118-123) and the read
error arm (mcp.rs:140-145) initiate shutdown, break, and fall through to
`Ok(())`; response serialization and stdout writes are modelled as
infallible. -/
def MCPServer.run (env : Env) (invoke : InvokeFn) (schema : SchemaFn) (now : ℚ) :
    BucketMap → List StdinEvent → Bool
  | _, [] => true
  | _, .readErr :: _ => true
  | st, .line j :: rest =>
      let step := MCPServer.handle_request env invoke schema now st j
      MCPServer.run env invoke schema now step.2 rest

/-- main (main.rs:14-43): `std::process::exit(if result.is_ok() { 0 } else
{ 1 })` applied to the result of MCPServer::run. -/
def mainExitCode (env : Env) (invoke : InvokeFn) (schema : SchemaFn) (now : ℚ)
    (st : BucketMap) (events : List StdinEvent) : Nat :=
  if MCPServer.run env invoke schema now st events then 0 else 1

/-! ## Sub-server registry (src/mcp-rust/src/registry.rs) and MCP proxy
(src/mcp-rust/src/handlers/mcp_proxy.rs) -/

/-- MCPServerType (registry.rs:27-33). -/
inductive MCPServerType where
  | stdio | http | webSocket
deriving DecidableEq, Repr

/-- DeploymentConfig (registry.rs:35-54). -/
inductive DeploymentConfig where
  | docker (image tag : String) (ports volumes : List String)
      (network runtime : Option String) : DeploymentConfig
  | process (command : String) (args : List String) : DeploymentConfig
  | lambda (functionName region : String) : DeploymentConfig
deriving DecidableEq, Repr

/-- AuthMethod (registry.rs:56-71). -/
inductive AuthMethod where
  | none : AuthMethod
  | apiKey (keyField : String) : AuthMethod
  | oauth2 (clientId clientSecret : String) : AuthMethod
  | basic (username password : String) : AuthMethod
deriving DecidableEq, Repr

/-- MCPServerConfig (registry.rs:13-25). -/
structure MCPServerConfig where
  id : String
  name : String
  description : String
  serverType : MCPServerType
  deployment : DeploymentConfig
  env : List (String × String)
  authMethod : AuthMethod
  capabilities : List String
  healthCheckIntervalSecs : Nat
  autoReconnect : Bool
deriving DecidableEq, Repr

/-- MCPTool (registry.rs:84-89). -/
structure MCPTool where
  name : String
  description : String
  inputSchema : Json

/-- ConnectionStatus (registry.rs:91-97). -/
inductive ConnectionStatus where
  | disconnected : ConnectionStatus
  | connecting : ConnectionStatus
  | connected : ConnectionStatus
  | failed (reason : String) : ConnectionStatus
deriving DecidableEq, Repr

/-- MCPServerConnection (registry.rs:73-82); the child-process handle is
abstracted to a numeric descriptor. -/
structure MCPServerConnection where
  config : MCPServerConfig
  process : Option Nat
  containerId : Option String
  endpoint : Option String
  status : ConnectionStatus
  lastHealthCheck : ℚ
  tools : List MCPTool

/-- RegistryError (registry.rs:644-660). -/
inductive RegistryError where
  | serverNotFound (s : String) : RegistryError
  | serverNotConnected (s : String) : RegistryError
  | toolNotFound (t : String) : RegistryError
  | connectionFailed (msg : String) : RegistryError
  | unsupportedServerType (msg : String) : RegistryError
  | storageError (msg : String) : RegistryError
  | serializationError (msg : String) : RegistryError
deriving DecidableEq, Repr

/-- Table of sub-server connections, keyed `tenantId-serverId`
(registry.rs:99-110). -/
abbrev ServerMap := List (String × MCPServerConnection)

/-- Side effects disconnect_server can issue against the operating system. -/
inductive RegistryEffect where
  | killProcess (handle : Nat) : RegistryEffect
  | dockerStop (containerName : String) : RegistryEffect
deriving DecidableEq, Repr

/-- MCPServerRegistry::disconnect_server (registry.rs:386-432): kill the
child process if any, stop the named container if any, then clear the
handles, set status Disconnected, drop the endpoint and the cached tools.
Always returns Ok (a missing entry is a silent success), so the result is
the list of issued OS effects plus the updated table. -/
def MCPServerRegistry.disconnect_server (tenantId serverId : String)
    (servers : ServerMap) : List RegistryEffect × ServerMap :=
  let key := tenantId ++ "-" ++ serverId
  match lookupKey key servers with
  | none => ([], servers)
  | some c =>
    let killEffects : List RegistryEffect :=
      match c.process with
      | some h => [.killProcess h]
      | none => []
    let stopEffects : List RegistryEffect :=
      match c.containerId with
      | some _ => [.dockerStop ("mcp-" ++ tenantId ++ "-" ++ serverId)]
      | none => []
    let c' : MCPServerConnection :=
      { c with process := none, containerId := none,
               status := .disconnected, endpoint := none, tools := [] }
    (killEffects ++ stopEffects, updateKey key c' servers)

/-- Placeholder reply of MCPServerRegistry::execute_stdio_tool
(registry.rs:537-561). -/
def stdioToolPlaceholder : Json :=
  .obj [("success", .bool true), ("result", .str "Tool execution placeholder")]

/-- MCPServerRegistry::execute_tool (registry.rs:453-483): requires the entry
to exist, be Connected, advertise the tool, and hold a process handle. -/
def MCPServerRegistry.execute_tool (tenantId serverId toolName : String)
    (servers : ServerMap) : Except RegistryError Json :=
  let key := tenantId ++ "-" ++ serverId
  match lookupKey key servers with
  | none => .error (.serverNotFound serverId)
  | some c =>
    if c.status ≠ .connected then
      .error (.serverNotConnected serverId)
    else if ¬ c.tools.any (fun t => t.name = toolName) then
      .error (.toolNotFound toolName)
    else
      match c.process with
      | some _ => .ok stdioToolPlaceholder
      | none => .error (.serverNotConnected serverId)

/-- MCPServerInfo (registry.rs:635-642). -/
structure MCPServerInfo where
  id : String
  name : String
  description : String
  status : String
  toolCount : Nat
deriving DecidableEq, Repr

/-- Debug rendering used for MCPServerInfo::status (registry.rs:444). -/
def ConnectionStatus.debugStr : ConnectionStatus → String
  | .disconnected => "Disconnected"
  | .connecting => "Connecting"
  | .connected => "Connected"
  | .failed r => "Failed(\"" ++ r ++ "\")"

/-- MCPServerRegistry::list_servers (registry.rs:434-451): every entry whose
key starts with `tenantId-`, in table order. -/
def MCPServerRegistry.list_servers (tenantId : String) (servers : ServerMap) :
    List MCPServerInfo :=
  (servers.filter (fun kv => (tenantId ++ "-").data.isPrefixOf kv.1.data)).map
    (fun kv =>
      { id := kv.2.config.id, name := kv.2.config.name,
        description := kv.2.config.description,
        status := kv.2.status.debugStr, toolCount := kv.2.tools.length })

/-- MCPProxyHandler::find_server_for_tool (mcp_proxy.rs:20-44): a dotted name
selects the server named before the first dot; a bare name returns the id of
the FIRST server listed for the tenant — the loop body returns
unconditionally without inspecting the server's advertised tools — and only
an empty table is an error. -/
def MCPProxyHandler.find_server_for_tool (tenantId toolName : String)
    (servers : ServerMap) : Except HandlerError String :=
  if '.' ∈ toolName.data then
    .ok (String.mk (toolName.data.takeWhile (fun c => c ≠ '.')))
  else
    match MCPServerRegistry.list_servers tenantId servers with
    | [] => .error (.internal ("No server found for tool: " ++ toolName))
    | s :: _ => .ok s.id

/-! ## Helper lemmas -/

/-- Updating one key leaves lookups of every other key unchanged. -/
theorem lookupKey_updateKey_ne {α : Type} (k k' : String) (v : α)
    (l : List (String × α)) (h : k' ≠ k) :
    lookupKey k' (updateKey k v l) = lookupKey k' l := by
  induction l with
  | nil =>
      simp [lookupKey, updateKey, Ne.symm h]
  | cons hd tl ih =>
      cases hd with
      | mk k0 v0 =>
        by_cases hk : k0 = k
        · subst hk
          simp [updateKey, lookupKey, Ne.symm h]
        · by_cases hk' : k0 = k'
          · simp [updateKey, hk, lookupKey, hk', h]
          · simp [updateKey, hk, lookupKey, hk', ih]

/-- Lookup after updating the same key yields the written value. -/
theorem lookupKey_updateKey_self {α : Type} (k : String) (v : α)
    (l : List (String × α)) :
    lookupKey k (updateKey k v l) = some v := by
  induction l with
  | nil => simp [lookupKey, updateKey]
  | cons hd tl ih =>
      by_cases hk : hd.1 = k
      · cases hd; simp_all [lookupKey, updateKey]
      · cases hd; simp_all [lookupKey, updateKey]

/-- Rewriting the value already stored at a key is the identity. -/
theorem updateKey_lookup_eq {α : Type} (k : String) (v : α)
    (l : List (String × α)) (h : lookupKey k l = some v) :
    updateKey k v l = l := by
  induction l with
  | nil => simp [lookupKey] at h
  | cons hd tl ih =>
      cases hd with
      | mk k0 v0 =>
        by_cases hk : k0 = k
        · simp [lookupKey, hk] at h
          simp [updateKey, hk, h]
        · simp [lookupKey, hk] at h
          simp [updateKey, hk, ih h]

/-- Appending the same suffix to two different strings yields different
strings (cancellation of String.append). -/
theorem string_append_right_cancel (a b s : String) (h : a ++ s = b ++ s) :
    a = b := by
  have h2 : a.data ++ s.data = b.data ++ s.data := by
    have := congrArg String.data h
    simpa [String.data_append] using this
  exact String.ext (List.append_cancel_right h2)

/-- Distinct tenants yield distinct bucket keys for the same service key. -/
theorem bucket_key_injective (t₁ t₂ s : String) (h : t₁ ≠ t₂) :
    t₁ ++ ":" ++ s ≠ t₂ ++ ":" ++ s := by
  intro he
  apply h
  have h1 : t₁ ++ ":" = t₂ ++ ":" := string_append_right_cancel _ _ _ he
  exact string_append_right_cancel _ _ _ h1

/-- Refilling a just-created (full) bucket at its creation instant leaves it
full: the elapsed time is zero. -/
theorem fresh_bucket_refill (now capacity rate : ℚ) :
    (RateLimitBucket.new now capacity rate).refill now
      = RateLimitBucket.mk capacity now capacity rate := by
  simp [RateLimitBucket.refill, RateLimitBucket.new, sub_self, zero_mul,
    add_zero, min_self]

/-- Charging a key with no bucket yet lazily creates a full bucket and
consumes from it: the charge is allowed exactly when the cost fits into the
capacity, and the bucket stored afterwards reflects the debit. -/
theorem check_aws_operation_fresh (limits : AwsServiceLimits) (st : BucketMap)
    (now : ℚ) (tenantId : String) (op : AwsOperation)
    (hnone : lookupKey (tenantId ++ ":" ++ op.service_key) st = none) :
    ((AwsRateLimiter.check_aws_operation limits st now tenantId op).1 = true ↔
        (limits.get_limits_for_operation op).2.2
          ≤ (limits.get_limits_for_operation op).1) ∧
    (AwsRateLimiter.check_aws_operation limits st now tenantId op).2
      = updateKey (tenantId ++ ":" ++ op.service_key)
          (RateLimitBucket.mk
            (if (limits.get_limits_for_operation op).2.2
                  ≤ (limits.get_limits_for_operation op).1
             then (limits.get_limits_for_operation op).1
                  - (limits.get_limits_for_operation op).2.2
             else (limits.get_limits_for_operation op).1)
            now (limits.get_limits_for_operation op).1
            (limits.get_limits_for_operation op).2.1) st := by
  simp only [AwsRateLimiter.check_aws_operation, hnone, Option.getD_none,
    RateLimitBucket.try_consume]
  rw [fresh_bucket_refill]
  by_cases hle : (limits.get_limits_for_operation op).2.2
      ≤ (limits.get_limits_for_operation op).1
  · simp [hle]
  · simp [hle]

/-- In process_request, a tools/call request with a string tool name leaves
the rate-limiter state at the post-charge state of the operation derived
from `params`, whatever the dispatch outcome. -/
theorem process_request_charge_state (env : Env) (invoke : InvokeFn)
    (schema : SchemaFn) (now : ℚ) (st : BucketMap) (req : MCPRequest)
    (s : TenantSession) (toolName : String) (params : Json) (op : AwsOperation)
    (hm : req.method = "tools/call") (hp : req.params = some params)
    (hname : (params.getField "name").bind Json.asStr = some toolName)
    (hsess : MCPServer.get_or_create_session env now req = .ok s)
    (hrl : s.check_rate_limit = true)
    (hop : AwsOperation.from_tool_name toolName params = some op) :
    (MCPServer.process_request env invoke schema now st req).2 =
      (AwsRateLimiter.check_aws_operation env.awsLimits st now
        s.context.tenantId op).2 := by
  unfold MCPServer.process_request
  rw [hsess]
  simp only [hrl, hm, hp, hname, hop, Bool.not_true, Bool.false_eq_true,
    if_false, if_true, reduceIte]
  cases hch : (AwsRateLimiter.check_aws_operation env.awsLimits st now
      s.context.tenantId op).1 <;>
    simp [hch]

/-- In process_request, a tools/call naming a registered tool whose required
permission the session lacks (and whose role is not Admin) produces the
HandlerError wrapping of the permission-denied message, provided the session
and charge checks pass. -/
theorem process_request_permission_denied (env : Env) (invoke : InvokeFn)
    (schema : SchemaFn) (now : ℚ) (st : BucketMap) (req : MCPRequest)
    (s : TenantSession) (toolName : String) (params : Json) (p : Permission)
    (hm : req.method = "tools/call") (hp : req.params = some params)
    (hname : params.getField "name" = some (.str toolName))
    (hreg : lookupKey toolName handlerTable = some (some p))
    (hsess : MCPServer.get_or_create_session env now req = .ok s)
    (hrole : s.context.role ≠ .admin) (hperm : p ∉ s.context.permissions)
    (hrl : s.check_rate_limit = true)
    (hcharge : ∀ op, AwsOperation.from_tool_name toolName params = some op →
        (AwsRateLimiter.check_aws_operation env.awsLimits st now
          s.context.tenantId op).1 = true) :
    (MCPServer.process_request env invoke schema now st req).1 =
      .error (.handlerError (HandlerError.permissionDenied p).toMessage) := by
  have hperm' : s.has_permission p = false := by
    unfold TenantSession.has_permission
    cases hr : s.context.role with
    | admin => exact absurd hr hrole
    | user => simp [hperm]
    | viewer => simp [hperm]
  have hname' : (params.getField "name").bind Json.asStr = some toolName := by
    rw [hname]; rfl
  obtain ⟨op, hop⟩ :
      ∃ op, AwsOperation.from_tool_name toolName params = some op := by
    unfold AwsOperation.from_tool_name
    split_ifs <;> exact ⟨_, rfl⟩
  have hch := hcharge op hop
  unfold MCPServer.process_request
  rw [hsess]
  simp only [hrl, hm, hp, hname', hop, hch, Bool.not_true, Bool.false_eq_true,
    if_false, if_true, reduceIte]
  unfold MCPServer.handle_tool_call
  simp only [hname, Json.asStr]
  unfold HandlerRegistry.handle_tool_call
  rw [hreg]
  have hctx : ((s.increment_request_count.increment_active_requests).update_activity
      now).has_permission p = s.has_permission p := rfl
  simp [hctx, hperm']

/-! ## Claim theorems -/

/-- C1: charging tenant T₁'s bucket for operation class C touches only the
key `T₁:C`; for any other tenant T₂ the bucket stored at `T₂:C` is exactly
the one stored before the charge. -/
theorem rate_limiter_tenant_isolation (limits : AwsServiceLimits)
    (buckets : BucketMap) (now : ℚ) (t₁ t₂ : String) (op : AwsOperation)
    (h : t₁ ≠ t₂) :
    lookupKey (t₂ ++ ":" ++ op.service_key)
        (AwsRateLimiter.check_aws_operation limits buckets now t₁ op).2
      = lookupKey (t₂ ++ ":" ++ op.service_key) buckets := by
  unfold AwsRateLimiter.check_aws_operation
  exact lookupKey_updateKey_ne _ _ _ _ (bucket_key_injective t₂ t₁ _ (Ne.symm h))

/-- Witness for C1: a concrete charge by tenant1 leaves tenant2's s3_get
bucket untouched. -/
theorem rate_limiter_tenant_isolation_witness :
    lookupKey ("tenant2" ++ ":" ++ AwsOperation.s3Get.service_key)
        (AwsRateLimiter.check_aws_operation AwsServiceLimits.default [] 0
          "tenant1" .s3Get).2
      = lookupKey ("tenant2" ++ ":" ++ AwsOperation.s3Get.service_key) [] :=
  rate_limiter_tenant_isolation AwsServiceLimits.default [] 0 "tenant1" "tenant2"
    .s3Get (by decide)

/-- C2: try_consume first refills to min(capacity, tokens + elapsed × rate),
then debits `cost` and answers allowed exactly when the refilled tokens cover
the cost, leaving the tokens untouched when denied; and it preserves
0 ≤ tokens ≤ capacity for nonnegative costs. -/
theorem try_consume_spec (b : RateLimitBucket) (now cost : ℚ)
    (htok₀ : 0 ≤ b.tokens) (htok₁ : b.tokens ≤ b.capacity)
    (hcost : 0 ≤ cost) (hrate : 0 ≤ b.refillRate) (hnow : b.lastRefill ≤ now) :
    (b.refill now).tokens
        = min b.capacity (b.tokens + (now - b.lastRefill) * b.refillRate) ∧
    ((b.try_consume now cost).1 = true ↔ cost ≤ (b.refill now).tokens) ∧
    ((b.try_consume now cost).1 = true →
        (b.try_consume now cost).2.tokens = (b.refill now).tokens - cost) ∧
    ((b.try_consume now cost).1 = false →
        (b.try_consume now cost).2.tokens = (b.refill now).tokens) ∧
    (b.try_consume now cost).2.capacity = b.capacity ∧
    0 ≤ (b.try_consume now cost).2.tokens ∧
    (b.try_consume now cost).2.tokens ≤ (b.try_consume now cost).2.capacity := by
  have hadd : 0 ≤ (now - b.lastRefill) * b.refillRate :=
    mul_nonneg (by linarith) hrate
  have href : (b.refill now).tokens
      = min (b.tokens + (now - b.lastRefill) * b.refillRate) b.capacity := rfl
  have hrefc : (b.refill now).capacity = b.capacity := rfl
  have href₀ : 0 ≤ (b.refill now).tokens := by
    rw [href]
    exact le_min (by linarith) (le_trans htok₀ htok₁)
  have href₁ : (b.refill now).tokens ≤ b.capacity := by
    rw [href]; exact min_le_right _ _
  constructor
  · rw [href, min_comm]
  · have htc : b.try_consume now cost =
        if cost ≤ (b.refill now).tokens
        then (true, { b.refill now with tokens := (b.refill now).tokens - cost })
        else (false, b.refill now) := rfl
    by_cases hle : cost ≤ (b.refill now).tokens
    · rw [htc, if_pos hle]
      refine ⟨by simp [hle], fun _ => rfl, by simp, rfl, ?_, ?_⟩
      · exact sub_nonneg.mpr hle
      · show (b.refill now).tokens - cost ≤ b.capacity
        linarith [href₁]
    · rw [htc, if_neg hle]
      exact ⟨by simp [hle], by simp, fun _ => rfl, rfl, href₀, href₁⟩

/-- Witness for C2: a full bucket of capacity 10, refill rate 1, charged 3
tokens 2 seconds later. -/
theorem try_consume_spec_witness :
    (0 : ℚ) ≤ 10 ∧
    ((RateLimitBucket.mk 10 0 10 1).try_consume 2 3).1 = true ∧
    ((RateLimitBucket.mk 10 0 10 1).try_consume 2 3).2.tokens = 7 := by
  have h := try_consume_spec (RateLimitBucket.mk 10 0 10 1) 2 3
    (by norm_num) (by norm_num) (by norm_num) (by norm_num) (by norm_num)
  refine ⟨by norm_num, ?_, ?_⟩
  · rcases h with ⟨_, hiff, _⟩
    apply hiff.mpr
    norm_num [RateLimitBucket.refill]
  · rcases h with ⟨href, hiff, hdeb, _⟩
    have hall : ((RateLimitBucket.mk 10 0 10 1).try_consume 2 3).1 = true := by
      apply hiff.mpr
      norm_num [RateLimitBucket.refill]
    rw [hdeb hall]
    norm_num [RateLimitBucket.refill]

/-- C8: disconnect on an entry that is already fully Disconnected — no
process handle, no container, no endpoint, no cached tools — succeeds,
issues no OS effects and leaves the table unchanged; and a second disconnect
after any first disconnect is always a no-op, so disconnecting twice equals
disconnecting once. -/
theorem disconnect_idempotent :
    (∀ tid sid servers c,
        lookupKey (tid ++ "-" ++ sid) servers = some c →
        c.status = .disconnected → c.process = none → c.containerId = none →
        c.endpoint = none → c.tools = [] →
        MCPServerRegistry.disconnect_server tid sid servers = ([], servers)) ∧
    (∀ tid sid servers,
        MCPServerRegistry.disconnect_server tid sid
            (MCPServerRegistry.disconnect_server tid sid servers).2
          = ([], (MCPServerRegistry.disconnect_server tid sid servers).2)) := by
  have heq : ∀ tid sid servers,
      MCPServerRegistry.disconnect_server tid sid servers =
        match lookupKey (tid ++ "-" ++ sid) servers with
        | none => ([], servers)
        | some c =>
            ((match c.process with
              | some h => [RegistryEffect.killProcess h]
              | none => []) ++
             (match c.containerId with
              | some _ => [RegistryEffect.dockerStop ("mcp-" ++ tid ++ "-" ++ sid)]
              | none => []),
             updateKey (tid ++ "-" ++ sid)
               { c with process := none,
                        containerId := none,
                        status := ConnectionStatus.disconnected,
                        endpoint := none,
                        tools := [] } servers) :=
    fun _ _ _ => rfl
  have hclean : ∀ (c : MCPServerConnection),
      c.status = ConnectionStatus.disconnected → c.process = none →
      c.containerId = none → c.endpoint = none → c.tools = [] →
      ({ c with process := none,
                containerId := none,
                status := ConnectionStatus.disconnected,
                endpoint := none,
                tools := [] } : MCPServerConnection) = c := by
    intro c hstat hproc hcont hend htools
    cases c
    simp_all
  constructor
  · intro tid sid servers c hlook hstat hproc hcont hend htools
    rw [heq, hlook]
    simp only [hproc, hcont, List.nil_append]
    rw [hclean c hstat hproc hcont hend htools, updateKey_lookup_eq _ _ _ hlook]
  · intro tid sid servers
    rw [heq tid sid (MCPServerRegistry.disconnect_server tid sid servers).2]
    rw [heq tid sid servers]
    cases hlook : lookupKey (tid ++ "-" ++ sid) servers with
    | none => simp [hlook]
    | some c =>
        simp only
        rw [lookupKey_updateKey_self]
        simp only
        rw [updateKey_lookup_eq _ _ _ (lookupKey_updateKey_self _ _ _)]
        simp

/-- Concrete sub-server configuration used by witnesses. -/
def sampleConfig (id : String) : MCPServerConfig where
  id := id
  name := id
  description := ""
  serverType := .stdio
  deployment := .process "cmd" []
  env := []
  authMethod := .none
  capabilities := []
  healthCheckIntervalSecs := 30
  autoReconnect := false

/-- Concrete registered-but-never-connected entry (the state produced by
register_server, registry.rs:160-168). -/
def registeredEntry (id : String) : MCPServerConnection where
  config := sampleConfig id
  process := none
  containerId := none
  endpoint := none
  status := .disconnected
  lastHealthCheck := 0
  tools := []

/-- Witness for C8: a registered-but-never-connected entry, disconnected
twice — both calls succeed, issue no kill/docker-stop effect, and leave the
table unchanged. -/
theorem disconnect_idempotent_witness :
    MCPServerRegistry.disconnect_server "t" "s" [("t-s", registeredEntry "s")]
        = ([], [("t-s", registeredEntry "s")]) ∧
    MCPServerRegistry.disconnect_server "t" "s"
        (MCPServerRegistry.disconnect_server "t" "s" [("t-s", registeredEntry "s")]).2
      = ([], (MCPServerRegistry.disconnect_server "t" "s"
          [("t-s", registeredEntry "s")]).2) :=
  ⟨disconnect_idempotent.1 "t" "s" _ (registeredEntry "s") rfl rfl rfl rfl rfl rfl,
   disconnect_idempotent.2 "t" "s" _⟩

/-- Connected sub-server entry with the given advertised tools, used by the
C6 failing input. -/
def connectedEntry (id : String) (tools : List MCPTool) : MCPServerConnection where
  config := sampleConfig id
  process := some 1
  containerId := none
  endpoint := none
  status := .connected
  lastHealthCheck := 0
  tools := tools

/-- Advertised tool `x` of the C6 failing input. -/
def toolX : MCPTool where
  name := "x"
  description := ""
  inputSchema := .obj []

/-- C6 failing input: tenant `t` has two connected sub-servers; the first
(`a`) advertises no tools, the second (`b`) advertises `x`. -/
def c6Servers : ServerMap :=
  [("t-a", connectedEntry "a" []), ("t-b", connectedEntry "b" [toolX])]

/-- C6: evaluation at the failing input.  For the bare tool name `x`,
find_server_for_tool selects server `a` — the first server in the table,
which does not advertise `x` — even though server `b` advertises `x`; the
subsequent execute_tool on `a` therefore fails with ToolNotFound while the
same call routed to `b` would succeed.  This contradicts the routing the
code's own comments describe (mcp_proxy.rs:31-39). -/
theorem find_server_ignores_tool_match :
    MCPProxyHandler.find_server_for_tool "t" "x" c6Servers = .ok "a" ∧
    (connectedEntry "a" []).tools.any (fun t => t.name = "x") = false ∧
    (connectedEntry "b" [toolX]).tools.any (fun t => t.name = "x") = true ∧
    MCPServerRegistry.execute_tool "t" "a" "x" c6Servers
        = .error (.toolNotFound "x") ∧
    MCPServerRegistry.execute_tool "t" "b" "x" c6Servers = .ok stdioToolPlaceholder :=
  ⟨rfl, rfl, rfl, rfl, rfl⟩

/-- Environment with no tenants and no defaults, used by concrete inputs. -/
def env0 : Env where
  defaultTenantId := none
  defaultUserId := none
  awsRegion := "us-west-2"
  tenantConfigs := []
  awsLimits := AwsServiceLimits.default

/-- Trivial handler bodies for concrete inputs. -/
def invoke0 : InvokeFn := fun _ _ => .ok .null

/-- Trivial tool schemas for concrete inputs. -/
def schema0 : SchemaFn := fun _ => .obj []

/-- C5 counterexample: a stream whose first read fails.  Shutdown is
triggered by the read error, yet the process exits with status 0, because
MCPServer::run breaks out of the loop and returns Ok on the read-error arm
exactly as on the EOF arm. -/
theorem read_error_exit_code_zero :
    shutdownCause [StdinEvent.readErr] = .readError ∧
    mainExitCode env0 invoke0 schema0 0 [] [StdinEvent.readErr] = 0 :=
  ⟨rfl, rfl⟩

/-- C5 amended: the process exits with status 0 whichever of the two
conditions — end-of-input or a read error — triggered shutdown (run returns
Ok on every input stream; only response-write failures, not modelled here,
could make it return an error). -/
theorem exit_code_zero_on_any_shutdown (env : Env) (invoke : InvokeFn)
    (schema : SchemaFn) (now : ℚ) (st : BucketMap) (events : List StdinEvent) :
    mainExitCode env invoke schema now st events = 0 := by
  unfold mainExitCode
  suffices h : MCPServer.run env invoke schema now st events = true by simp [h]
  induction events generalizing st with
  | nil => rfl
  | cons e rest ih =>
      cases e with
      | line j => exact ih _
      | readErr => rfl

/-- Tool names given a dedicated arm by from_tool_name; every other name
falls into the catch-all GenericAwsApi arm. -/
def knownToolNames : List String :=
  ["kv_get", "kv_list", "kv_set", "kv_delete", "artifacts_get", "artifacts_list",
   "artifacts_put", "events_send", "analytics_query"]

/-- Tenant context used by concrete inputs: a plain User with no explicit
permissions and default resource limits. -/
def ctxW : TenantContext where
  tenantId := "t"
  userId := "u"
  contextType := .personal
  organizationId := ""
  role := .user
  permissions := []
  awsRegion := "us-west-2"
  resourceLimits := ResourceLimits.default

/-- Environment whose tenant directory knows tenant `t` (context ctxW). -/
def envW : Env where
  defaultTenantId := none
  defaultUserId := none
  awsRegion := "us-west-2"
  tenantConfigs := [("t", ctxW)]
  awsLimits := AwsServiceLimits.default

/-- Concrete tools/call params naming kv_get. -/
def paramsW : Json := .obj [("name", .str "kv_get")]

/-- Concrete tools/call request for kv_get from tenant t. -/
def reqW : MCPRequest where
  jsonrpc := "2.0"
  id := some (.num 1)
  method := "tools/call"
  params := some paramsW
  tenantId := some "t"
  userId := some "u"
  sessionToken := none

/-- C10: from_tool_name is total — the trailing catch-all arm maps every
name outside the dedicated list to GenericAwsApi with cost 1 — and for every
tools/call request carrying a string tool name, the limiter state returned
by process_request is the post-charge state, whether or not the later
handler lookup succeeds; in particular unknown tools are charged before
handle_tool_call can report NotFound. -/
theorem from_tool_name_total :
    (∀ name args, (AwsOperation.from_tool_name name args).isSome = true) ∧
    (∀ name args, name ∉ knownToolNames →
        AwsOperation.from_tool_name name args = some .genericAwsApi) ∧
    (∀ limits : AwsServiceLimits,
        (limits.get_limits_for_operation .genericAwsApi).2.2 = 1) ∧
    (∀ env invoke schema now st req s toolName params op,
        req.method = "tools/call" → req.params = some params →
        (params.getField "name").bind Json.asStr = some toolName →
        MCPServer.get_or_create_session env now req = .ok s →
        s.check_rate_limit = true →
        AwsOperation.from_tool_name toolName params = some op →
        (MCPServer.process_request env invoke schema now st req).2 =
          (AwsRateLimiter.check_aws_operation env.awsLimits st now
            s.context.tenantId op).2) := by
  refine ⟨?_, ?_, ?_, ?_⟩
  · intro name args
    unfold AwsOperation.from_tool_name
    split_ifs <;> rfl
  · intro name args h
    simp only [knownToolNames, List.mem_cons, List.not_mem_nil, or_false,
      not_or] at h
    obtain ⟨h1, h2, h3, h4, h5, h6, h7, h8, h9⟩ := h
    simp [AwsOperation.from_tool_name, h1, h2, h3, h4, h5, h6, h7, h8, h9]
  · intro limits
    rfl
  · intro env invoke schema now st req s toolName params op hm hp hname hsess hrl hop
    unfold MCPServer.process_request
    rw [hsess]
    simp only [hrl, hm, hp, hname, hop, Bool.not_true, Bool.false_eq_true,
      if_false, if_true, reduceIte]
    cases hch : (AwsRateLimiter.check_aws_operation env.awsLimits st now
        s.context.tenantId op).1 <;>
      simp [hch]

/-- Witness for C10: the unknown tool name `some_unknown_tool` maps to
GenericAwsApi, and a concrete kv_get tools/call leaves the limiter in the
post-charge state. -/
theorem from_tool_name_total_witness :
    AwsOperation.from_tool_name "some_unknown_tool" (.obj [])
        = some .genericAwsApi ∧
    (MCPServer.process_request envW invoke0 schema0 0 [] reqW).2 =
      (AwsRateLimiter.check_aws_operation envW.awsLimits [] 0
        (TenantSession.new 0 ctxW).context.tenantId (.dynamoDbRead 1)).2 :=
  ⟨from_tool_name_total.2.1 "some_unknown_tool" (.obj []) (by decide),
   from_tool_name_total.2.2.2 envW invoke0 schema0 0 [] reqW
     (TenantSession.new 0 ctxW) "kv_get" paramsW (.dynamoDbRead 1)
     rfl rfl rfl rfl rfl rfl⟩

/-- C4 failing input: a well-formed events_send tools/call whose batch of 3
events sits, as the protocol prescribes, under params.arguments.events. -/
def c4Params : Json :=
  .obj [("name", .str "events_send"),
        ("arguments", .obj [("events", .arr [.obj [], .obj [], .obj []])])]

/-- Concrete events_send request used to exercise the charge path. -/
def reqE : MCPRequest where
  jsonrpc := "2.0"
  id := some (.num 2)
  method := "tools/call"
  params := some c4Params
  tenantId := some "t"
  userId := some "u"
  sessionToken := none

/-- C4 counterexample: process_request hands `params` itself (not
params.arguments) to from_tool_name, so the nested events array is invisible:
the operation charged for a 3-event batch is EventBridgePutEvents with
event_count 1 and cost 1, and the eventbridge_put bucket of capacity 1000 is
left at 999 tokens, not at 997 = 1000 - min(3, 10). -/
theorem events_batch_cost_counterexample :
    AwsOperation.from_tool_name "events_send" c4Params
        = some (.eventBridgePutEvents 1) ∧
    (AwsServiceLimits.default.get_limits_for_operation
        (.eventBridgePutEvents 1)).2.2 = 1 ∧
    ((c4Params.getField "arguments").bind (fun a => a.getField "events")).bind
        Json.asArr = some [.obj [], .obj [], .obj []] ∧
    lookupKey ("t" ++ ":" ++ "eventbridge_put")
        (MCPServer.process_request envW invoke0 schema0 0 [] reqE).2
      = some (RateLimitBucket.mk 999 0 1000 1000) ∧
    min ((3 : ℚ)) ((AwsServiceLimits.default.eventbridgeEventsBatchSize : ℚ)) = 3 ∧
    (1 : ℚ) ≠ 3 := by
  refine ⟨rfl, rfl, rfl, ?_, by norm_num [AwsServiceLimits.default], by norm_num⟩
  rw [process_request_charge_state envW invoke0 schema0 0 [] reqE
      (TenantSession.new 0 ctxW) "events_send" c4Params (.eventBridgePutEvents 1)
      rfl rfl rfl rfl rfl rfl]
  rw [(check_aws_operation_fresh envW.awsLimits [] 0
      (TenantSession.new 0 ctxW).context.tenantId (.eventBridgePutEvents 1) rfl).2]
  simp only [updateKey, lookupKey]
  norm_num [envW, ctxW, TenantSession.new, AwsOperation.service_key,
    AwsServiceLimits.get_limits_for_operation, AwsServiceLimits.default,
    min_def]

/-- C4 amended: the cost of the event-put charge is min(n, batchCeiling)
where n is the length of the TOP-LEVEL `events` field of the value passed to
from_tool_name — which process_request instantiates with `params`, not
params.arguments — and 1 when that field is absent or not an array. -/
theorem events_batch_cost_amended :
    (∀ params elems, params.getField "events" = some (.arr elems) →
        AwsOperation.from_tool_name "events_send" params
          = some (.eventBridgePutEvents elems.length)) ∧
    (∀ params, (params.getField "events").bind Json.asArr = none →
        AwsOperation.from_tool_name "events_send" params
          = some (.eventBridgePutEvents 1)) ∧
    (∀ (limits : AwsServiceLimits) (n : Nat),
        (limits.get_limits_for_operation (.eventBridgePutEvents n)).2.2 =
          min (n : ℚ) (limits.eventbridgeEventsBatchSize : ℚ)) := by
  refine ⟨?_, ?_, ?_⟩
  · intro params elems h
    simp [AwsOperation.from_tool_name, h, Json.asArr]
  · intro params h
    simp [AwsOperation.from_tool_name, h]
  · intro limits n
    rfl

/-- Witness for C4's amended claim: a top-level 3-event array yields
event_count 3, an absent array yields 1, and the default-limit cost of a
3-event operation is min(3, 10) = 3. -/
theorem events_batch_cost_amended_witness :
    AwsOperation.from_tool_name "events_send"
        (.obj [("events", .arr [.obj [], .obj [], .obj []])])
      = some (.eventBridgePutEvents 3) ∧
    AwsOperation.from_tool_name "events_send" (.obj [])
      = some (.eventBridgePutEvents 1) ∧
    (AwsServiceLimits.default.get_limits_for_operation
        (.eventBridgePutEvents 3)).2.2
      = min ((3 : Nat) : ℚ) ((AwsServiceLimits.default.eventbridgeEventsBatchSize : Nat) : ℚ) :=
  ⟨events_batch_cost_amended.1 (.obj [("events", .arr [.obj [], .obj [], .obj []])])
      [.obj [], .obj [], .obj []] rfl,
   events_batch_cost_amended.2.1 (.obj []) rfl,
   events_batch_cost_amended.2.2 AwsServiceLimits.default 3⟩

/-- Raw JSON record of the C3 failing input: a tools/call for kv_get with
id 1 from tenant t, whose session (role User, empty permission list) lacks
ReadKV. -/
def j3 : Json :=
  .obj [("jsonrpc", .str "2.0"), ("id", .num 1), ("method", .str "tools/call"),
        ("params", .obj [("name", .str "kv_get")]),
        ("tenant_id", .str "t"), ("user_id", .str "u")]

/-- Fresh charge of kv_get's operation on an empty bucket map succeeds: the
cost 1 fits into the capacity 1000. -/
theorem kv_get_fresh_charge_allowed :
    (AwsRateLimiter.check_aws_operation envW.awsLimits [] 0
      (TenantSession.new 0 ctxW).context.tenantId (.dynamoDbRead 1)).1 = true :=
  (check_aws_operation_fresh envW.awsLimits [] 0
    (TenantSession.new 0 ctxW).context.tenantId (.dynamoDbRead 1) rfl).1.mpr
    (by norm_num [AwsServiceLimits.get_limits_for_operation, envW,
      AwsServiceLimits.default])

/-- C3 counterexample: on the concrete failing input the response is a
JSON-RPC error with code -32003 (handler error), not -32000: MCPServer::
handle_tool_call wraps the registry's PermissionDenied into
MCPError::HandlerError (mcp.rs:373-377), and MCPError::PermissionDenied — the
only source of -32000 — is dead code. -/
theorem permission_denied_code_counterexample :
    (MCPServer.handle_request envW invoke0 schema0 0 [] j3).1.map
        (fun r => r.error.map (fun e => e.code)) = some (some (-32003)) ∧
    (-32003 : Int) ≠ -32000 := by
  refine ⟨?_, by decide⟩
  have h1 : (MCPServer.process_request envW invoke0 schema0 0 [] reqW).1 =
      .error (.handlerError (HandlerError.permissionDenied .readKV).toMessage) :=
    process_request_permission_denied envW invoke0 schema0 0 [] reqW
      (TenantSession.new 0 ctxW) "kv_get" paramsW .readKV rfl rfl rfl rfl rfl
      (by decide) (by decide) rfl
      (fun op hop => by
        have hop' : op = .dynamoDbRead 1 :=
          Option.some.inj (hop.symm.trans rfl)
        rw [hop']
        exact kv_get_fresh_charge_allowed)
  have hpair : MCPServer.process_request envW invoke0 schema0 0 [] reqW =
      (.error (.handlerError (HandlerError.permissionDenied .readKV).toMessage),
       (MCPServer.process_request envW invoke0 schema0 0 [] reqW).2) :=
    Prod.ext h1 rfl
  have hdec : MCPRequest.ofJson j3 = some reqW := rfl
  unfold MCPServer.handle_request
  rw [hdec]
  simp only [reqW] at hpair ⊢
  rw [hpair]
  rfl

/-- C3 amended: for every tools/call naming a registered tool whose required
permission the non-Admin session lacks, given the session and charge checks
pass, process_request yields MCPError::HandlerError wrapping the
permission-denied message, whose JSON-RPC error code is -32003 (handler
error) — not -32000, which the code never emits. -/
theorem permission_denied_wrapped_as_handler_error (env : Env) (invoke : InvokeFn)
    (schema : SchemaFn) (now : ℚ) (st : BucketMap) (req : MCPRequest)
    (s : TenantSession) (toolName : String) (params : Json) (p : Permission)
    (hm : req.method = "tools/call") (hp : req.params = some params)
    (hname : params.getField "name" = some (.str toolName))
    (hreg : lookupKey toolName handlerTable = some (some p))
    (hsess : MCPServer.get_or_create_session env now req = .ok s)
    (hrole : s.context.role ≠ .admin) (hperm : p ∉ s.context.permissions)
    (hrl : s.check_rate_limit = true)
    (hcharge : ∀ op, AwsOperation.from_tool_name toolName params = some op →
        (AwsRateLimiter.check_aws_operation env.awsLimits st now
          s.context.tenantId op).1 = true) :
    (MCPServer.process_request env invoke schema now st req).1 =
      .error (.handlerError (HandlerError.permissionDenied p).toMessage) ∧
    (MCPError.handlerError
        (HandlerError.permissionDenied p).toMessage).toResponseError.code
      = -32003 :=
  ⟨process_request_permission_denied env invoke schema now st req s toolName
      params p hm hp hname hreg hsess hrole hperm hrl hcharge, rfl⟩

/-- Witness for C3's amended claim: the concrete kv_get call by the
permissionless User session yields the wrapped handler error with code
-32003. -/
theorem permission_denied_wrapped_witness :
    (MCPServer.process_request envW invoke0 schema0 0 [] reqW).1 =
      .error (.handlerError (HandlerError.permissionDenied .readKV).toMessage) ∧
    (MCPError.handlerError
        (HandlerError.permissionDenied .readKV).toMessage).toResponseError.code
      = -32003 :=
  permission_denied_wrapped_as_handler_error envW invoke0 schema0 0 [] reqW
    (TenantSession.new 0 ctxW) "kv_get" paramsW .readKV rfl rfl rfl rfl rfl
    (by decide) (by decide) rfl
    (fun op hop => by
      have hop' : op = .dynamoDbRead 1 := Option.some.inj (hop.symm.trans rfl)
      rw [hop']
      exact kv_get_fresh_charge_allowed)

/-- Every successful get_or_create_session returns a session built by
TenantSession::new, hence with both counters at zero. -/
theorem get_or_create_session_fresh (env : Env) (now : ℚ) (req : MCPRequest)
    (s : TenantSession) (hsess : MCPServer.get_or_create_session env now req = .ok s) :
    s.requestCount = 0 ∧ s.activeRequests = 0 := by
  unfold MCPServer.get_or_create_session at hsess
  cases h1 : req.tenantId.orElse fun _ => env.defaultTenantId with
  | none => simp [h1] at hsess
  | some tid =>
    simp only [h1] at hsess
    cases h2 : req.userId.orElse fun _ => env.defaultUserId with
    | none => simp [h2] at hsess
    | some uid =>
      simp only [h2] at hsess
      cases h3 : lookupKey tid env.tenantConfigs with
      | some ctx =>
          simp only [h3] at hsess
          by_cases h4 : ctx.userId = uid
          · simp only [h4, if_true, reduceIte, Except.ok.injEq] at hsess
            rw [← hsess]
            exact ⟨rfl, rfl⟩
          · simp [h4] at hsess
      | none =>
          simp only [h3] at hsess
          by_cases h4 : env.defaultTenantId.isSome
          · simp only [h4, if_true, reduceIte, Except.ok.injEq] at hsess
            rw [← hsess]
            exact ⟨rfl, rfl⟩
          · simp [h4] at hsess

/-- get_or_create_session never fails with RateLimitExceeded: its error
outcomes are InvalidRequest and TenantError only. -/
theorem get_or_create_session_no_rate_error (env : Env) (now : ℚ)
    (req : MCPRequest) :
    MCPServer.get_or_create_session env now req ≠ .error .rateLimitExceeded := by
  unfold MCPServer.get_or_create_session
  split
  · simp
  · split
    · simp
    · split
      · split <;> simp
      · split <;> simp

/-- C9: process_request builds a brand-new session per request —
get_or_create_session always returns TenantSession::new's output, whose
requestCount and activeRequests are 0 — so the legacy per-session guards
compare zero against the limits and pass whenever requestsPerMinute ≥ 1 and
maxConcurrentRequests ≥ 1; consequently a request (other than a tools/call,
which can still be denied by the token bucket) is never refused with
RateLimitExceeded. -/
theorem fresh_session_counters :
    (∀ (now : ℚ) (ctx : TenantContext),
        (TenantSession.new now ctx).requestCount = 0 ∧
        (TenantSession.new now ctx).activeRequests = 0) ∧
    (∀ (env : Env) (now : ℚ) (req : MCPRequest) (s : TenantSession),
        MCPServer.get_or_create_session env now req = .ok s →
        s.requestCount = 0 ∧ s.activeRequests = 0) ∧
    (∀ (now : ℚ) (ctx : TenantContext),
        1 ≤ ctx.resourceLimits.requestsPerMinute →
        1 ≤ ctx.resourceLimits.maxConcurrentRequests →
        (TenantSession.new now ctx).check_rate_limit = true) ∧
    (∀ (env : Env) (invoke : InvokeFn) (schema : SchemaFn) (now : ℚ)
        (st : BucketMap) (req : MCPRequest),
        (∀ s, MCPServer.get_or_create_session env now req = .ok s →
            1 ≤ s.context.resourceLimits.requestsPerMinute ∧
            1 ≤ s.context.resourceLimits.maxConcurrentRequests) →
        req.method ≠ "tools/call" →
        (MCPServer.process_request env invoke schema now st req).1 ≠
          .error .rateLimitExceeded) := by
  refine ⟨fun now ctx => ⟨rfl, rfl⟩, get_or_create_session_fresh, ?_, ?_⟩
  · intro now ctx hrpm hmcr
    unfold TenantSession.check_rate_limit
    have h1 : (TenantSession.new now ctx).requestCount = 0 := rfl
    have h2 : (TenantSession.new now ctx).activeRequests = 0 := rfl
    rw [h1, h2]
    simp only [Bool.and_eq_true, decide_eq_true_eq]
    constructor <;> [skip; skip] <;>
      first
        | exact lt_of_lt_of_le Nat.zero_lt_one hrpm
        | exact lt_of_lt_of_le Nat.zero_lt_one hmcr
  · intro env invoke schema now st req hlim hm
    cases hsess : MCPServer.get_or_create_session env now req with
    | error e =>
        unfold MCPServer.process_request
        rw [hsess]
        intro hcontra
        simp only [Except.error.injEq] at hcontra
        exact get_or_create_session_no_rate_error env now req
          (by rw [hsess, hcontra])
    | ok s =>
        have hz := get_or_create_session_fresh env now req s hsess
        have hrl : s.check_rate_limit = true := by
          obtain ⟨hrpm, hmcr⟩ := hlim s hsess
          unfold TenantSession.check_rate_limit
          rw [hz.1, hz.2]
          simp only [Bool.and_eq_true, decide_eq_true_eq]
          exact ⟨lt_of_lt_of_le Nat.zero_lt_one hrpm,
            lt_of_lt_of_le Nat.zero_lt_one hmcr⟩
        unfold MCPServer.process_request
        rw [hsess]
        simp only [hrl, hm, Bool.not_true, Bool.false_eq_true, if_false,
          if_true, reduceIte]
        repeat' split
        all_goals simp

/-- Concrete tools/list request from tenant t. -/
def reqL : MCPRequest where
  jsonrpc := "2.0"
  id := some (.num 3)
  method := "tools/list"
  params := none
  tenantId := some "t"
  userId := some "u"
  sessionToken := none

/-- Witness for C9: the fresh session for tenant t (limits 100 and 10)
passes the legacy guards, and a concrete tools/list request is not refused
with RateLimitExceeded. -/
theorem fresh_session_counters_witness :
    (TenantSession.new 0 ctxW).check_rate_limit = true ∧
    (MCPServer.process_request envW invoke0 schema0 0 [] reqL).1 ≠
      .error .rateLimitExceeded :=
  ⟨fresh_session_counters.2.2.1 0 ctxW (by decide) (by decide),
   fresh_session_counters.2.2.2 envW invoke0 schema0 0 [] reqL
     (fun s hs => by
       have hs' : TenantSession.new 0 ctxW = s :=
         Except.ok.inj ((rfl : MCPServer.get_or_create_session envW 0 reqL
            = .ok (TenantSession.new 0 ctxW)).symm.trans hs)
       rw [← hs']
       exact ⟨by decide, by decide⟩)
     (by decide)⟩

/-- C7 theorem: for every record that decodes as an MCPRequest,
handle_request emits a response exactly when the decoded id is present (the
decoder maps both a missing and a null id to none), and any emitted response
carries the request's id verbatim. -/
theorem response_iff_id_present :
    (∀ (env : Env) (invoke : InvokeFn) (schema : SchemaFn) (now : ℚ)
        (st : BucketMap) (j : Json) (req : MCPRequest),
        MCPRequest.ofJson j = some req →
        ((MCPServer.handle_request env invoke schema now st j).1.isSome ↔
          req.id ≠ none)) ∧
    (∀ (env : Env) (invoke : InvokeFn) (schema : SchemaFn) (now : ℚ)
        (st : BucketMap) (j : Json) (req : MCPRequest) (resp : MCPResponse),
        MCPRequest.ofJson j = some req →
        (MCPServer.handle_request env invoke schema now st j).1 = some resp →
        resp.id = req.id) := by
  constructor
  · intro env invoke schema now st j req hdec
    unfold MCPServer.handle_request
    rw [hdec]
    cases hid : req.id with
    | none => simp [hid]
    | some v =>
        cases hpr : MCPServer.process_request env invoke schema now st req with
        | mk r st' => cases r <;> simp [hpr, hid]
  · intro env invoke schema now st j req resp hdec hresp
    unfold MCPServer.handle_request at hresp
    rw [hdec] at hresp
    dsimp only at hresp
    cases hid : req.id with
    | none => simp [hid] at hresp
    | some v =>
        cases hpr : MCPServer.process_request env invoke schema now st req with
        | mk r st' =>
            simp only [hpr] at hresp
            rw [hid] at hresp
            cases r with
            | ok val =>
                have h2 : some ({ jsonrpc := "2.0",
                                  id := some v,
                                  result := some val,
                                  error := none } : MCPResponse)
                    = some resp := hresp
                rw [← Option.some.inj h2]
            | error e =>
                have h2 : some ({ jsonrpc := "2.0",
                                  id := some v,
                                  result := none,
                                  error := some e.toResponseError } : MCPResponse)
                    = some resp := hresp
                rw [← Option.some.inj h2]

/-- Requests with id 0 and id "" (and the notification forms with id null or
no id) used by the C7 witness. -/
def jIdZero : Json :=
  .obj [("jsonrpc", .str "2.0"), ("id", .num 0), ("method", .str "tools/list"),
        ("tenant_id", .str "t"), ("user_id", .str "u")]

/-- Same record with the empty string as id. -/
def jIdEmptyStr : Json :=
  .obj [("jsonrpc", .str "2.0"), ("id", .str ""), ("method", .str "tools/list"),
        ("tenant_id", .str "t"), ("user_id", .str "u")]

/-- Same record with a null id: a notification. -/
def jIdNull : Json :=
  .obj [("jsonrpc", .str "2.0"), ("id", .null), ("method", .str "tools/list"),
        ("tenant_id", .str "t"), ("user_id", .str "u")]

/-- Decoded form of jIdZero. -/
def reqIdZero : MCPRequest where
  jsonrpc := "2.0"
  id := some (.num 0)
  method := "tools/list"
  params := none
  tenantId := some "t"
  userId := some "u"
  sessionToken := none

/-- Decoded form of jIdEmptyStr. -/
def reqIdEmptyStr : MCPRequest where
  jsonrpc := "2.0"
  id := some (.str "")
  method := "tools/list"
  params := none
  tenantId := some "t"
  userId := some "u"
  sessionToken := none

/-- Decoded form of jIdNull: the null id decodes to none. -/
def reqIdNull : MCPRequest where
  jsonrpc := "2.0"
  id := none
  method := "tools/list"
  params := none
  tenantId := some "t"
  userId := some "u"
  sessionToken := none

/-- Witness for C7: id 0 and id "" produce a response, id null produces
none. -/
theorem response_iff_id_present_witness :
    ((MCPServer.handle_request envW invoke0 schema0 0 [] jIdZero).1.isSome ↔
        reqIdZero.id ≠ none) ∧
    ((MCPServer.handle_request envW invoke0 schema0 0 [] jIdEmptyStr).1.isSome ↔
        reqIdEmptyStr.id ≠ none) ∧
    ((MCPServer.handle_request envW invoke0 schema0 0 [] jIdNull).1.isSome ↔
        reqIdNull.id ≠ none) :=
  ⟨response_iff_id_present.1 envW invoke0 schema0 0 [] jIdZero reqIdZero rfl,
   response_iff_id_present.1 envW invoke0 schema0 0 [] jIdEmptyStr reqIdEmptyStr rfl,
   response_iff_id_present.1 envW invoke0 schema0 0 [] jIdNull reqIdNull rfl⟩

end McpRust
